import Mathlib

/-!
Verification of the command-execution orchestrator (`skills/codex/scripts/codex.py`)
and the notification block builder (`hooks/claude_slack_notifier.py`).

The Python sources are shallowly embedded: every function below mirrors one
function (or one delimited section of `main`) of the source.  Python values
decoded from JSON lines are modelled by `JsonVal`; Python `None` is
`JsonVal.null`; a Python `Optional[str]` is `Option String`; a Python
statement that raises an uncaught exception is modelled by returning `none`
(or a dedicated crash constructor) from the embedding.
-/

set_option autoImplicit false

/-- Values produced by Python `json.loads`, and Python runtime values derived
from them.  Floating point numbers do not occur in any property considered
here and are omitted from the model. -/
inductive JsonVal where
  | null
  | bool (b : Bool)
  | num (n : Int)
  | str (s : String)
  | arr (xs : List JsonVal)
  | obj (fields : List (String × JsonVal))

/-- Python truthiness (`if value:`) for the modelled values:
`None`, `False`, `0`, `""`, `[]` and `{}` are falsy, everything else truthy. -/
def JsonVal.truthy : JsonVal → Bool
  | .null => false
  | .bool b => b
  | .num n => n != 0
  | .str s => s != ""
  | .arr xs => !xs.isEmpty
  | .obj fs => !fs.isEmpty

/-- Python `d.get(key)` on a dict: the stored value, or `None` when the key is
absent.  Dicts produced by `json.loads` have unique keys, so first match
equals dict lookup. -/
def pyGet : List (String × JsonVal) → String → JsonVal
  | [], _ => JsonVal.null
  | kv :: rest, key => if kv.1 == key then kv.2 else pyGet rest key

/-- Python `d.get(key, dflt)` on a dict. -/
def pyGetD : List (String × JsonVal) → String → JsonVal → JsonVal
  | [], _, dflt => dflt
  | kv :: rest, key, dflt => if kv.1 == key then kv.2 else pyGetD rest key dflt

/-- Python `v == s` for a string literal `s`: string equality when `v` is a
string, `False` for every other value. -/
def pyEqStr (v : JsonVal) (s : String) : Bool :=
  match v with
  | .str t => t == s
  | _ => false

mutual

/-- Python `repr` for the modelled values (string escaping inside nested
containers is not reproduced; no property here depends on it). -/
def pyRepr : JsonVal → String
  | .null => "None"
  | .bool true => "True"
  | .bool false => "False"
  | .num n => toString n
  | .str s => "\x27" ++ s ++ "\x27"
  | .arr xs => "[" ++ pyReprSeq xs ++ "]"
  | .obj fs => "\x7b" ++ pyReprFields fs ++ "\x7d"

def pyReprSeq : List JsonVal → String
  | [] => ""
  | [v] => pyRepr v
  | v :: rest => pyRepr v ++ ", " ++ pyReprSeq rest

def pyReprFields : List (String × JsonVal) → String
  | [] => ""
  | [(k, v)] => "\x27" ++ k ++ "\x27: " ++ pyRepr v
  | (k, v) :: rest => "\x27" ++ k ++ "\x27: " ++ pyRepr v ++ ", " ++ pyReprFields rest

end

/-- Python `str(v)` / f-string interpolation `f"{v}"`. -/
def pyStr : JsonVal → String
  | .str s => s
  | v => pyRepr v

/- ------------------------------------------------------------------
Constants of `codex.py`.
------------------------------------------------------------------ -/

def DEFAULT_MODEL : String := "gpt-5.1-codex"

def DEFAULT_WORKDIR : String := "."

/-- 2 hours in seconds. -/
def DEFAULT_TIMEOUT : Int := 7200

def FORCE_KILL_DELAY : Nat := 5

/-- Auto-switch to stdin for prompts longer than 800 chars. -/
def STDIN_THRESHOLD : Nat := 800

/- ------------------------------------------------------------------
`resolve_timeout` (codex.py lines 39-54) and its model of Python `int()`.
------------------------------------------------------------------ -/

/-- Python `str.strip()`: drop leading and trailing whitespace characters
(ASCII whitespace; exotic Unicode space characters are not modelled). -/
def pyStripChars (l : List Char) : List Char :=
  ((l.dropWhile Char.isWhitespace).reverse.dropWhile Char.isWhitespace).reverse

/-- Digit run of a Python integer literal after the first digit: decimal
digits with single underscores allowed between digits. -/
def parseDigitsCore : Nat → List Char → Option Nat
  | acc, [] => some acc
  | acc, c :: cs =>
    if c.isDigit then parseDigitsCore (10 * acc + (c.toNat - 48)) cs
    else if c == '_' then
      match cs with
      | [] => none
      | d :: rest =>
        if d.isDigit then parseDigitsCore (10 * acc + (d.toNat - 48)) rest else none
    else none

/-- A nonempty digit run: the first character must be a digit. -/
def parseDigitsStart : List Char → Option Nat
  | [] => none
  | c :: cs => if c.isDigit then parseDigitsCore (c.toNat - 48) cs else none

/-- Python `int(raw)` on a decoded environment string: strips surrounding
whitespace, accepts an optional sign and ASCII decimal digits (with the
underscore grouping rule); `none` models `ValueError`. -/
def pyParseInt (s : String) : Option Int :=
  match pyStripChars s.data with
  | [] => none
  | c :: cs =>
    if c == '+' then (parseDigitsStart cs).map (fun n => (n : Int))
    else if c == '-' then (parseDigitsStart cs).map (fun n => -(n : Int))
    else (parseDigitsStart (c :: cs)).map (fun n => (n : Int))

/-- `resolve_timeout` (codex.py lines 39-54).  `env` is
`os.environ.get('CODEX_TIMEOUT', '')`, with `none` for an absent variable. -/
def resolve_timeout (env : Option String) : Int :=
  let raw := env.getD ""
  if raw == "" then DEFAULT_TIMEOUT
  else
    match pyParseInt raw with
    | none => DEFAULT_TIMEOUT
    | some parsed =>
      if parsed ≤ 0 then DEFAULT_TIMEOUT
      else if 10000 < parsed then parsed / 1000 else parsed

/- ------------------------------------------------------------------
`normalize_text` (codex.py lines 57-63).
------------------------------------------------------------------ -/

/-- Python `''.join(xs)`: concatenation when every element is a string;
`none` models the `TypeError` raised on a non-string element. -/
def pyJoinStrList : List JsonVal → Option String
  | [] => some ""
  | JsonVal.str s :: rest => (pyJoinStrList rest).map (fun t => s ++ t)
  | _ :: _ => none

/-- `normalize_text` (codex.py lines 57-63).  The outer `Option` is control
flow: `none` models an uncaught `TypeError` from `''.join`; `some r` is a
normal return with Python value `r` (`none` inside being Python `None`). -/
def normalize_text (text : JsonVal) : Option (Option String) :=
  match text with
  | .str s => some (some s)
  | .arr xs => (pyJoinStrList xs).map some
  | _ => some none

/- ------------------------------------------------------------------
`parse_args` (codex.py lines 66-90).
------------------------------------------------------------------ -/

/-- Invocation mode; `resume` additionally records `params['session_id']`. -/
inductive Mode where
  | new
  | resume (session_id : String)

/-- The dict returned by `parse_args`. -/
structure Params where
  mode : Mode
  task : String
  model : String
  workdir : String

/-- `parse_args` (codex.py lines 66-90) over `sys.argv` (element 0 is the
program name).  `Except.error c` models `sys.exit(c)` before any further
work. -/
def parse_args (argv : List String) : Except Int Params :=
  if argv.length < 2 then .error 1
  else if argv.getD 1 "" == "resume" then
    if argv.length < 4 then .error 1
    else .ok
      { mode := .resume (argv.getD 2 "")
        task := argv.getD 3 ""
        model := if argv.length > 4 then argv.getD 4 "" else DEFAULT_MODEL
        workdir := if argv.length > 5 then argv.getD 5 "" else DEFAULT_WORKDIR }
  else .ok
    { mode := .new
      task := argv.getD 1 ""
      model := if argv.length > 2 then argv.getD 2 "" else DEFAULT_MODEL
      workdir := if argv.length > 3 then argv.getD 3 "" else DEFAULT_WORKDIR }

/- ------------------------------------------------------------------
`build_codex_args` (codex.py lines 93-135) and channel selection
(codex.py line 144: `use_stdin = task_length > STDIN_THRESHOLD`).
------------------------------------------------------------------ -/

/-- Line 144 of codex.py: the stdin auto-switch decision. -/
def select_use_stdin (task_length : Nat) : Bool :=
  decide (STDIN_THRESHOLD < task_length)

/-- The two channels by which the task text reaches the child process. -/
inductive ChannelMode where
  | argument
  | standardInput

/-- Channel selection as a pure function of the task length. -/
def select_channel (task_length : Nat) : ChannelMode :=
  if select_use_stdin task_length then .standardInput else .argument

/-- `build_codex_args` (codex.py lines 93-135). -/
def build_codex_args (params : Params) (use_stdin : Bool) : List String :=
  match params.mode with
  | .resume sid =>
    if use_stdin then
      ["codex", "e", "--skip-git-repo-check", "--json", "resume", sid, "-"]
    else
      ["codex", "e", "--skip-git-repo-check", "--json", "resume", sid, params.task]
  | .new =>
    let base := ["codex", "e", "-m", params.model,
      "--dangerously-bypass-approvals-and-sandbox", "--skip-git-repo-check",
      "-C", params.workdir, "--json"]
    base ++ [if use_stdin then "-" else params.task]

/- ------------------------------------------------------------------
The streaming loop of `main` (codex.py lines 151-191).
------------------------------------------------------------------ -/

/-- The mutable run state of `main`: `thread_id` starts as Python `None`
(`JsonVal.null`) and stores whatever `event.get('thread_id')` returns;
`last_agent_message` is the `Optional[str]` variable. -/
structure StreamState where
  thread_id : JsonVal
  last_agent_message : Option String

/-- Initial run state (codex.py lines 151-152). -/
def initState : StreamState := { thread_id := JsonVal.null, last_agent_message := none }

/-- Python truthiness of an `Optional[str]` (`if text:` / `if last_agent_message:`). -/
def truthyOptStr : Option String → Bool
  | none => false
  | some s => s != ""

/-- One line of the child's standard output after `line.strip()`.
`blank` strips to the empty string and is skipped; `undecodable` makes
`json.loads` raise `JSONDecodeError`; `decoded j` makes it return `j`. -/
inductive Line where
  | blank
  | undecodable
  | decoded (j : JsonVal)

/-- The event-handling body of the streaming loop (codex.py lines 177-188),
applied to one successfully decoded value.  Returns `none` when the Python
code raises an uncaught exception: an `AttributeError` from calling `.get`
on a non-dict (`event.get('type')` on a non-object line, or
`event.get('item', \x7b\x7d).get('type')` when `item` is a non-object), or a
`TypeError` from `normalize_text`. -/
def processEvent (st : StreamState) (event : JsonVal) : Option StreamState :=
  match event with
  | JsonVal.obj fields =>
    let st1 :=
      if pyEqStr (pyGet fields "type") "thread.started" then
        { st with thread_id := pyGet fields "thread_id" }
      else st
    if pyEqStr (pyGet fields "type") "item.completed" then
      match pyGetD fields "item" (JsonVal.obj []) with
      | JsonVal.obj itemFields =>
        if pyEqStr (pyGet itemFields "type") "agent_message" then
          match normalize_text (pyGet itemFields "text") with
          | none => none
          | some text =>
            some (if truthyOptStr text then { st1 with last_agent_message := text } else st1)
        else some st1
      | _ => none
    else some st1
  | _ => none

/-- One iteration of the streaming loop (codex.py lines 171-191).  The `Bool`
records whether the iteration emitted the decode-failure warning. -/
def processLine (st : StreamState) (l : Line) : Option (StreamState × Bool) :=
  match l with
  | .blank => some (st, false)
  | .undecodable => some (st, true)
  | .decoded j => (processEvent st j).map (fun st2 => (st2, false))

/-- The whole streaming loop: final state and number of warnings, or `none`
when some line raised an uncaught exception. -/
def runStream (st : StreamState) : List Line → Option (StreamState × Nat)
  | [] => some (st, 0)
  | l :: ls =>
    match processLine st l with
    | none => none
    | some (st2, warned) =>
      (runStream st2 ls).map (fun p => (p.1, p.2 + (if warned then 1 else 0)))

/-- The wire-protocol shape `{"type":"thread.started","thread_id":...}`. -/
def mkThreadStarted (tid : String) : JsonVal :=
  JsonVal.obj [("type", JsonVal.str "thread.started"), ("thread_id", JsonVal.str tid)]

/-- The wire-protocol shape
`{"type":"item.completed","item":{"type":"agent_message","text":...}}`. -/
def mkAgentMessage (text : JsonVal) : JsonVal :=
  JsonVal.obj [("type", JsonVal.str "item.completed"),
    ("item", JsonVal.obj [("type", JsonVal.str "agent_message"), ("text", text)])]

/- ------------------------------------------------------------------
Result reporting (codex.py lines 196-211) and the cancellation handlers
(codex.py lines 213-232).
------------------------------------------------------------------ -/

/-- What reaches standard output plus the `sys.exit` status. -/
structure ReportResult where
  stdout : String
  exitStatus : Int

/-- Lines 196-211 of codex.py: reporting after a normal `process.wait`. -/
def report (returncode : Int) (st : StreamState) : ReportResult :=
  if returncode == 0 then
    if truthyOptStr st.last_agent_message then
      { stdout := (st.last_agent_message.getD "") ++ "\n" ++
          (if st.thread_id.truthy then "\n---\nSESSION_ID: " ++ pyStr st.thread_id ++ "\n"
           else "")
        exitStatus := 0 }
    else { stdout := "", exitStatus := 1 }
  else { stdout := "", exitStatus := returncode }

/-- Observable process-control actions of the two cancellation handlers:
`terminate` is `process.terminate()`, `kill` is `process.kill()`, and
`graceWait s` is `process.wait(timeout=s)` after a signal. -/
inductive CancelAction where
  | terminate
  | kill
  | graceWait (seconds : Nat)
deriving DecidableEq

/-- The `subprocess.TimeoutExpired` handler (codex.py lines 213-220):
`process.kill()`, then `process.wait(timeout=FORCE_KILL_DELAY)` whose own
timeout is swallowed by `pass`, then `sys.exit(124)`.  The behaviour does
not depend on whether the grace wait succeeds. -/
def cancelOnTimeout : List CancelAction × Int :=
  ([CancelAction.kill, CancelAction.graceWait FORCE_KILL_DELAY], 124)

/-- The `KeyboardInterrupt` handler (codex.py lines 226-232):
`process.terminate()`, then a grace wait, then `process.kill()` only if the
grace wait times out, then `sys.exit(130)`. -/
def cancelOnInterrupt (exitsWithinGrace : Bool) : List CancelAction × Int :=
  (if exitsWithinGrace then [CancelAction.terminate, CancelAction.graceWait FORCE_KILL_DELAY]
   else [CancelAction.terminate, CancelAction.graceWait FORCE_KILL_DELAY, CancelAction.kill],
   130)

/- ------------------------------------------------------------------
`main` (codex.py lines 138-232), parameterised by the environment's
contribution: how the spawn and the final wait turn out.
------------------------------------------------------------------ -/

/-- How `process.wait(timeout=timeout_sec)` ends: a normal exit code, the
timeout budget elapsing (`subprocess.TimeoutExpired`), or a caller interrupt
(`KeyboardInterrupt`, with the flag telling whether the child exits within
the grace window after `terminate`). -/
inductive WaitResult where
  | exited (code : Int)
  | timedOut
  | interrupted (exitsWithinGrace : Bool)

/-- The child process as seen by `main`: either `subprocess.Popen` raises
`FileNotFoundError`, or the child runs, emits `lines` on stdout, and its
wait ends as `wait`. -/
inductive ChildBehavior where
  | spawnFailure
  | runs (lines : List Line) (wait : WaitResult)

/-- Terminal outcome of one run of `main`.  `usageError` happens before any
spawn attempt; `streamCrash` is an uncaught exception inside the streaming
loop (the interpreter dies with a traceback); the other constructors record
the spawned argument vector, observable output/actions, and the exit
status. -/
inductive RunOutcome where
  | usageError (exitStatus : Int)
  | spawnNotFound (args : List String) (exitStatus : Int)
  | streamCrash (args : List String)
  | finished (args : List String) (stdout : String) (exitStatus : Int)
  | killedOnTimeout (args : List String) (actions : List CancelAction) (exitStatus : Int)
  | killedOnInterrupt (args : List String) (actions : List CancelAction) (exitStatus : Int)

/-- `main` (codex.py lines 138-232). -/
def mainRun (argv : List String) (child : ChildBehavior) : RunOutcome :=
  match parse_args argv with
  | .error code => .usageError code
  | .ok params =>
    let use_stdin := select_use_stdin params.task.length
    let args := build_codex_args params use_stdin
    match child with
    | .spawnFailure => .spawnNotFound args 127
    | .runs lines wait =>
      match runStream initState lines with
      | none => .streamCrash args
      | some (st, _warnings) =>
        match wait with
        | .exited code =>
          let r := report code st
          .finished args r.stdout r.exitStatus
        | .timedOut => .killedOnTimeout args cancelOnTimeout.1 cancelOnTimeout.2
        | .interrupted g =>
          .killedOnInterrupt args (cancelOnInterrupt g).1 (cancelOnInterrupt g).2

/- ------------------------------------------------------------------
`create_notification_blocks` (claude_slack_notifier.py lines 105-227).
------------------------------------------------------------------ -/

/-- The `event_config` lookup (claude_slack_notifier.py lines 116-146):
emoji, colour and title for an event type, with the default entry. -/
def event_config (event_type : String) : String × String × String :=
  if event_type == "notification" then ("🔔", "#FFA500", "Claude Code Needs Your Action")
  else if event_type == "stop" then ("✅", "#36a64f", "Claude Code Task Completed")
  else if event_type == "user_prompt_submit" then ("💬", "#2196F3", "Claude Code New Task Started")
  else if event_type == "pre_tool_use" then ("⚠️", "#FF9800", "Claude Code About to Execute Tool")
  else if event_type == "post_tool_use" then ("✔️", "#4CAF50", "Claude Code Tool Execution Completed")
  else ("ℹ️", "#808080", "Claude Code Event")

/-- Python slicing `s[:n]` on a string (by code point). -/
def pySlice (s : String) (n : Nat) : String :=
  String.mk (s.data.take n)

/-- Lines 184-186 of claude_slack_notifier.py: the per-value truncation.
Only string values longer than 200 characters are rewritten. -/
def truncate_value (value : JsonVal) : JsonVal :=
  match value with
  | JsonVal.str s => if 200 < s.length then JsonVal.str (pySlice s 200 ++ "...") else JsonVal.str s
  | v => v

/-- Line 187 of claude_slack_notifier.py: one appended detail entry. -/
def detail_entry (key : String) (value : JsonVal) : String :=
  "*" ++ key ++ ":*\n```" ++ pyStr (truncate_value value) ++ "```\n"

/-- The detail-text loop (claude_slack_notifier.py lines 179-187): skip the
`CWD` key, skip falsy values, truncate and append the rest. -/
def build_detail_text (details : List (String × JsonVal)) : String :=
  details.foldl
    (fun acc kv =>
      if kv.1 == "CWD" then acc
      else if kv.2.truthy then acc ++ detail_entry kv.1 kv.2
      else acc)
    ""

/-- The optional `Path` section (claude_slack_notifier.py lines 169-175). -/
def path_blocks (path : JsonVal) : List JsonVal :=
  if path.truthy then
    [JsonVal.obj [("type", JsonVal.str "section"),
      ("fields", JsonVal.arr [JsonVal.obj [("type", JsonVal.str "mrkdwn"),
        ("text", JsonVal.str ("*Path:*\n`" ++ pyStr path ++ "`"))]])]]
  else []

/-- The optional detail section (claude_slack_notifier.py lines 178-192). -/
def detail_blocks (details : List (String × JsonVal)) : List JsonVal :=
  let detail_text := if details.isEmpty then "" else build_detail_text details
  if detail_text == "" then []
  else
    [JsonVal.obj [("type", JsonVal.str "section"),
      ("text", JsonVal.obj [("type", JsonVal.str "mrkdwn"), ("text", JsonVal.str detail_text)])]]

/-- The optional IDE jump buttons (claude_slack_notifier.py lines 195-223). -/
def button_blocks (path : JsonVal) : List JsonVal :=
  if path.truthy then
    [JsonVal.obj [("type", JsonVal.str "actions"),
      ("elements", JsonVal.arr [
        JsonVal.obj [("type", JsonVal.str "button"),
          ("text", JsonVal.obj [("type", JsonVal.str "plain_text"),
            ("text", JsonVal.str "🚀 Open in GoLand"), ("emoji", JsonVal.bool true)]),
          ("url", JsonVal.str ("goland://open?file=" ++ pyStr path)),
          ("style", JsonVal.str "primary")],
        JsonVal.obj [("type", JsonVal.str "button"),
          ("text", JsonVal.obj [("type", JsonVal.str "plain_text"),
            ("text", JsonVal.str "✨ Open in Cursor"), ("emoji", JsonVal.bool true)]),
          ("url", JsonVal.str ("cursor://file/" ++ pyStr path))]])]]
  else []

/-- `create_notification_blocks` (claude_slack_notifier.py lines 105-227).
`timestamp` stands for the `datetime.now()` format result. -/
def create_notification_blocks (timestamp event_type : String)
    (details : List (String × JsonVal)) : List JsonVal :=
  let config := event_config event_type
  [JsonVal.obj [("type", JsonVal.str "header"),
    ("text", JsonVal.obj [("type", JsonVal.str "plain_text"),
      ("text", JsonVal.str (config.1 ++ " " ++ config.2.2)),
      ("emoji", JsonVal.bool true)])],
   JsonVal.obj [("type", JsonVal.str "section"),
    ("fields", JsonVal.arr [
      JsonVal.obj [("type", JsonVal.str "mrkdwn"), ("text", JsonVal.str ("*Time:*\n" ++ timestamp))],
      JsonVal.obj [("type", JsonVal.str "mrkdwn"),
        ("text", JsonVal.str ("*Event Type:*\n`" ++ event_type ++ "`"))]])]]
  ++ path_blocks (pyGet details "CWD")
  ++ detail_blocks details
  ++ button_blocks (pyGet details "CWD")
  ++ [JsonVal.obj [("type", JsonVal.str "divider")]]

/-- A 201-character string, one character over the truncation limit. -/
def longA : String := String.mk (List.replicate 201 'a')

/- ==================================================================
Claims.
================================================================== -/

/-- C2, counterexample: the claim states that the resolver applied to
"5000" returns 5 via the millisecond heuristic.  In the code the heuristic
only divides values strictly greater than 10000, so "5000" resolves to 5000
seconds, not 5. -/
theorem c2_counterexample :
    resolve_timeout (some "5000") = 5000 ∧ resolve_timeout (some "5000") ≠ 5 := by
  refine ⟨by decide, by decide⟩

/-- C2 (amended): the timeout resolver applied to the environment override
string "5000" returns 5000 seconds (the millisecond heuristic only applies
strictly above 10000), and applied to "30" returns 30 seconds. -/
theorem c2_resolve_examples :
    resolve_timeout (some "5000") = 5000 ∧ resolve_timeout (some "30") = 30 := by
  refine ⟨by decide, by decide⟩

/-- C7: channel selection is a pure function of task length with an
exclusive threshold of 800 characters: lengths at most 800 select the
argument channel, larger lengths select the standard-input channel. -/
theorem c7_channel_threshold (n : Nat) :
    (n ≤ 800 → select_channel n = ChannelMode.argument)
    ∧ (800 < n → select_channel n = ChannelMode.standardInput)
    ∧ STDIN_THRESHOLD = 800 := by
  refine ⟨fun h => ?_, fun h => ?_, rfl⟩
  · have hb : select_use_stdin n = false := by
      simp only [select_use_stdin, STDIN_THRESHOLD, decide_eq_false_iff_not]
      omega
    simp [select_channel, hb]
  · have hb : select_use_stdin n = true := by
      simp only [select_use_stdin, STDIN_THRESHOLD, decide_eq_true_eq]
      omega
    simp [select_channel, hb]

/-- C7 witness: the threshold is exclusive at 800. -/
theorem c7_witness :
    select_channel 800 = ChannelMode.argument
    ∧ select_channel 801 = ChannelMode.standardInput :=
  ⟨(c7_channel_threshold 800).1 (by decide), (c7_channel_threshold 801).2.1 (by decide)⟩

/-- C8: for every environment override the timeout resolver returns a
positive number of seconds; absent/empty input, unparsable input and
non-positive numbers give the 7200-second default; parsed values above
10000 are integer-divided by 1000; other parsed values are used directly. -/
theorem c8_resolve_timeout_contract (env : Option String) (raw : String) (n : Int) :
    0 < resolve_timeout env
    ∧ resolve_timeout none = DEFAULT_TIMEOUT
    ∧ resolve_timeout (some "") = DEFAULT_TIMEOUT
    ∧ (pyParseInt raw = none → resolve_timeout (some raw) = DEFAULT_TIMEOUT)
    ∧ (pyParseInt raw = some n → n ≤ 0 → resolve_timeout (some raw) = DEFAULT_TIMEOUT)
    ∧ (pyParseInt raw = some n → 10000 < n → resolve_timeout (some raw) = n / 1000)
    ∧ (pyParseInt raw = some n → 0 < n → n ≤ 10000 → resolve_timeout (some raw) = n)
    ∧ resolve_timeout (some "0") = DEFAULT_TIMEOUT
    ∧ resolve_timeout (some "-5") = DEFAULT_TIMEOUT
    ∧ resolve_timeout (some "abc") = DEFAULT_TIMEOUT := by
  refine ⟨?_, by decide, by decide, ?_, ?_, ?_, ?_, by decide, by decide, by decide⟩
  · simp only [resolve_timeout]
    split
    · decide
    · split
      · decide
      · split
        · decide
        · split
          · rename_i parsed hpos h10
            omega
          · rename_i parsed hpos h10
            omega
  · intro h
    by_cases hr : raw = ""
    · subst hr; decide
    · have hb : (raw == "") = false := by simp [hr]
      simp [resolve_timeout, hb, h]
  · intro h hle
    by_cases hr : raw = ""
    · subst hr; decide
    · have hb : (raw == "") = false := by simp [hr]
      simp [resolve_timeout, hb, h, hle]
  · intro h h10
    by_cases hr : raw = ""
    · rw [hr] at h
      have he : pyParseInt "" = none := by decide
      rw [he] at h
      exact Option.noConfusion h
    · have hb : (raw == "") = false := by simp [hr]
      have hnp : ¬ n ≤ 0 := by omega
      simp [resolve_timeout, hb, h, hnp, h10]
  · intro h h0 hle
    by_cases hr : raw = ""
    · rw [hr] at h
      have he : pyParseInt "" = none := by decide
      rw [he] at h
      exact Option.noConfusion h
    · have hb : (raw == "") = false := by simp [hr]
      have hnp : ¬ n ≤ 0 := by omega
      have hn10 : ¬ 10000 < n := by omega
      simp [resolve_timeout, hb, h, hnp, hn10]

/-- C8 witness: concrete instances of every branch of the contract. -/
theorem c8_witness :
    0 < resolve_timeout (some "15000")
    ∧ resolve_timeout (some "15000") = 15
    ∧ resolve_timeout (some "9999") = 9999
    ∧ resolve_timeout (some "xyz") = DEFAULT_TIMEOUT := by
  refine ⟨(c8_resolve_timeout_contract (some "15000") "15000" 15000).1, ?_, ?_, ?_⟩
  · have h := (c8_resolve_timeout_contract (some "15000") "15000" 15000).2.2.2.2.2.1
      (by decide) (by decide)
    exact h.trans (by decide)
  · exact (c8_resolve_timeout_contract (some "9999") "9999" 9999).2.2.2.2.2.2.1
      (by decide) (by decide) (by decide)
  · exact (c8_resolve_timeout_contract (some "xyz") "xyz" 0).2.2.2.1 (by decide)

/-- C3, counterexample: the claim states no single bad line aborts the
stream or the run.  A line that decodes to a non-object JSON value (here
the number 5) raises an uncaught `AttributeError` at `event.get('type')`,
aborting the run; the later valid agent message is never applied. -/
theorem c3_counterexample :
    runStream initState
      [Line.decoded (JsonVal.num 5), Line.decoded (mkAgentMessage (JsonVal.str "y"))]
      = none := rfl

/-- C3 (amended): a line on which JSON decoding fails is discarded with a
warning and the state is unchanged; blank lines and well-formed object
lines of unrecognized shape are skipped (the latter without a warning);
in the [x, malformed, y] scenario the stream survives the malformed line
and the final message is "y".  (Lines decoding to non-object JSON values
abort the run instead, see the counterexample.) -/
theorem c3_malformed_line_tolerance (st : StreamState) :
    processLine st Line.undecodable = some (st, true)
    ∧ processLine st Line.blank = some (st, false)
    ∧ processLine st (Line.decoded (JsonVal.obj [("type", JsonVal.str "turn.started")]))
      = some (st, false)
    ∧ runStream initState
        [Line.decoded (mkAgentMessage (JsonVal.str "x")), Line.undecodable,
         Line.decoded (mkAgentMessage (JsonVal.str "y"))]
      = some ({ thread_id := JsonVal.null, last_agent_message := some "y" }, 1) := by
  refine ⟨rfl, rfl, rfl, rfl⟩

/-- C4, counterexample: an `ItemCompleted(agent_message, "")` event does not
overwrite a previously captured message ("x" survives), because the code
guards the assignment with `if text:`; so the tracked message is not
overwritten on each agent-message event. -/
theorem c4_counterexample :
    processLine { thread_id := JsonVal.null, last_agent_message := some "x" }
        (Line.decoded (mkAgentMessage (JsonVal.str "")))
      = some ({ thread_id := JsonVal.null, last_agent_message := some "x" }, false)
    ∧ (some "x" : Option String) ≠ some "" :=
  ⟨rfl, by simp⟩

/-- C4 (amended): the tracked session id is overwritten on each
ThreadStarted event, and the tracked message is overwritten on each
ItemCompleted agent_message event whose normalized text is non-empty;
the most recent such value wins and no history accumulates
([ThreadStarted a, ThreadStarted b] leaves "b"). -/
theorem c4_last_event_wins (st : StreamState) (tid txt : String) (h : txt ≠ "") :
    processLine st (Line.decoded (mkThreadStarted tid))
      = some ({ st with thread_id := JsonVal.str tid }, false)
    ∧ processLine st (Line.decoded (mkAgentMessage (JsonVal.str txt)))
      = some ({ st with last_agent_message := some txt }, false)
    ∧ runStream initState
        [Line.decoded (mkThreadStarted "a"), Line.decoded (mkThreadStarted "b")]
      = some ({ initState with thread_id := JsonVal.str "b" }, 0) := by
  refine ⟨rfl, ?_, rfl⟩
  have hb : (txt != "") = true := by simpa using h
  simp [processLine, processEvent, mkAgentMessage, pyGet, pyGetD, pyEqStr,
    normalize_text, truthyOptStr, hb]

/-- C4 witness at concrete inputs. -/
theorem c4_witness :
    processLine initState (Line.decoded (mkThreadStarted "t"))
      = some ({ initState with thread_id := JsonVal.str "t" }, false)
    ∧ processLine initState (Line.decoded (mkAgentMessage (JsonVal.str "m")))
      = some ({ initState with last_agent_message := some "m" }, false) :=
  ⟨(c4_last_event_wins initState "t" "m" (by decide)).1,
   (c4_last_event_wins initState "t" "m" (by decide)).2.1⟩

/-- C9, counterexample: an agent_message whose text is a sequence holding a
non-string (here the number 1) does not leave the state unchanged: it
raises an uncaught `TypeError` inside `''.join` and aborts the run. -/
theorem c9_counterexample :
    processLine { thread_id := JsonVal.null, last_agent_message := some "x" }
        (Line.decoded (mkAgentMessage (JsonVal.arr [JsonVal.num 1]))) = none
    ∧ (none : Option (StreamState × Bool))
        ≠ some ({ thread_id := JsonVal.null, last_agent_message := some "x" }, false) :=
  ⟨rfl, by simp⟩

/-- C9 (amended): an agent_message event whose text normalizes to `None`
(a value that is neither a string nor a sequence, or a missing field) or to
the empty string (empty string or empty sequence) leaves the whole state
unchanged; but a sequence containing a non-string aborts the run. -/
theorem c9_empty_text_no_overwrite (st : StreamState) (t : JsonVal)
    (h : normalize_text t = some none ∨ normalize_text t = some (some "")) :
    processLine st (Line.decoded (mkAgentMessage t)) = some (st, false)
    ∧ processLine st (Line.decoded (mkAgentMessage (JsonVal.arr [JsonVal.num 1]))) = none := by
  refine ⟨?_, rfl⟩
  rcases h with h | h <;>
    simp [processLine, processEvent, mkAgentMessage, pyGet, pyGetD, pyEqStr,
      truthyOptStr, h]

/-- C9 witness: an empty sequence (normalizing to "") does not overwrite a
captured message. -/
theorem c9_witness :
    processLine { thread_id := JsonVal.null, last_agent_message := some "x" }
        (Line.decoded (mkAgentMessage (JsonVal.arr [])))
      = some ({ thread_id := JsonVal.null, last_agent_message := some "x" }, false) :=
  (c9_empty_text_no_overwrite
    { thread_id := JsonVal.null, last_agent_message := some "x" }
    (JsonVal.arr []) (Or.inr rfl)).1

/-- C5, counterexample: the resolver does not require a non-empty task
string: the empty task "" is accepted in New mode and a child process is
spawned with it. -/
theorem c5_counterexample :
    parse_args ["codex.py", ""]
      = Except.ok
          { mode := Mode.new, task := "", model := DEFAULT_MODEL, workdir := DEFAULT_WORKDIR }
    ∧ mainRun ["codex.py", ""] (ChildBehavior.runs [] (WaitResult.exited 0))
      = RunOutcome.finished
          (build_codex_args
            { mode := Mode.new, task := "", model := DEFAULT_MODEL, workdir := DEFAULT_WORKDIR }
            false)
          "" 1 :=
  ⟨rfl, rfl⟩

/-- C5 (amended): in New mode the resolver requires a task argument to be
present (an empty string is accepted); when it is missing the run fails
with the usage status 1 and no child process is spawned (the outcome is
independent of any child behaviour). -/
theorem c5_missing_task_usage_error (child : ChildBehavior) :
    mainRun ["codex.py"] child = RunOutcome.usageError 1 := rfl

/-- C6: on normal exit 0 with a captured non-empty message the message is
printed, followed by the session footer when a session id was captured, and
the status is 0; with no captured message the status is 1; the concrete
scenario produces exactly "done\n\n---\nSESSION_ID: s1\n". -/
theorem c6_report_success (msg tid : String) (hm : msg ≠ "") (ht : tid ≠ "") :
    report 0 { thread_id := JsonVal.str tid, last_agent_message := some msg }
      = { stdout := msg ++ "\n" ++ ("\n---\nSESSION_ID: " ++ tid ++ "\n"), exitStatus := 0 }
    ∧ report 0 { thread_id := JsonVal.null, last_agent_message := some msg }
      = { stdout := msg ++ "\n", exitStatus := 0 }
    ∧ report 0 { thread_id := JsonVal.str tid, last_agent_message := none }
      = { stdout := "", exitStatus := 1 }
    ∧ mainRun ["codex.py", "hi"]
        (ChildBehavior.runs
          [Line.decoded (mkThreadStarted "s1"),
           Line.decoded (mkAgentMessage (JsonVal.str "done"))]
          (WaitResult.exited 0))
      = RunOutcome.finished
          (build_codex_args
            { mode := Mode.new, task := "hi", model := DEFAULT_MODEL, workdir := DEFAULT_WORKDIR }
            false)
          "done\n\n---\nSESSION_ID: s1\n" 0 := by
  have hbm : (msg != "") = true := by simpa using hm
  have hbt : (tid != "") = true := by simpa using ht
  refine ⟨?_, ?_, rfl, rfl⟩
  · simp [report, truthyOptStr, JsonVal.truthy, pyStr, hbm, hbt]
  · simp [report, truthyOptStr, JsonVal.truthy, hbm]

/-- C6 witness at the scenario values. -/
theorem c6_witness :
    report 0 { thread_id := JsonVal.str "s1", last_agent_message := some "done" }
      = { stdout := "done\n\n---\nSESSION_ID: s1\n", exitStatus := 0 } := by
  have h := (c6_report_success "done" "s1" (by decide) (by decide)).1
  exact h.trans (by rfl)

/-- C1, counterexample: when the budget elapses the handler's first action
is `process.kill()`, and no graceful termination signal is ever sent on the
timeout path (the terminate-then-kill sequence lives in the interrupt
handler instead); the exit status 124 part of the claim does hold. -/
theorem c1_counterexample :
    mainRun ["codex.py", "task"] (ChildBehavior.runs [] WaitResult.timedOut)
      = RunOutcome.killedOnTimeout
          (build_codex_args
            { mode := Mode.new, task := "task", model := DEFAULT_MODEL, workdir := DEFAULT_WORKDIR }
            false)
          [CancelAction.kill, CancelAction.graceWait FORCE_KILL_DELAY] 124
    ∧ CancelAction.terminate ∉ [CancelAction.kill, CancelAction.graceWait FORCE_KILL_DELAY] :=
  ⟨rfl, by decide⟩

/-- C1 (amended): when the budget elapses during the wait the orchestrator
force-kills immediately, then waits up to the 5-second grace window (with
no further signal), and the run exits with status 124; the graceful
terminate, grace window, then force-kill sequence is the interrupt path,
which exits with status 130. -/
theorem c1_timeout_kill_sequence (argv : List String) (lines : List Line) (p : Params)
    (st : StreamState) (w : Nat)
    (h1 : parse_args argv = Except.ok p)
    (h2 : runStream initState lines = some (st, w)) :
    mainRun argv (ChildBehavior.runs lines WaitResult.timedOut)
      = RunOutcome.killedOnTimeout (build_codex_args p (select_use_stdin p.task.length))
          [CancelAction.kill, CancelAction.graceWait FORCE_KILL_DELAY] 124
    ∧ mainRun argv (ChildBehavior.runs lines (WaitResult.interrupted false))
      = RunOutcome.killedOnInterrupt (build_codex_args p (select_use_stdin p.task.length))
          [CancelAction.terminate, CancelAction.graceWait FORCE_KILL_DELAY, CancelAction.kill]
          130 := by
  constructor <;> simp [mainRun, h1, h2, cancelOnTimeout, cancelOnInterrupt]

/-- C1 witness with a concrete invocation and an empty stream. -/
theorem c1_witness :
    mainRun ["codex.py", "task"] (ChildBehavior.runs [] WaitResult.timedOut)
      = RunOutcome.killedOnTimeout
          (build_codex_args
            { mode := Mode.new, task := "task", model := DEFAULT_MODEL, workdir := DEFAULT_WORKDIR }
            false)
          [CancelAction.kill, CancelAction.graceWait FORCE_KILL_DELAY] 124 := by
  have h := (c1_timeout_kill_sequence ["codex.py", "task"] []
    { mode := Mode.new, task := "task", model := DEFAULT_MODEL, workdir := DEFAULT_WORKDIR }
    initState 0 (by rfl) (by rfl)).1
  exact h

/- Helper lemmas for the truncation claim. -/

theorem strDataAppend (s t : String) : (s ++ t).data = s.data ++ t.data := by
  cases s; cases t; rfl

theorem strLenAppend (s t : String) : (s ++ t).length = s.length + t.length := by
  cases s
  cases t
  exact List.length_append _ _

theorem pySlice_length (s : String) (n : Nat) : (pySlice s n).length = min n s.length := by
  cases s
  exact List.length_take _ _

theorem pySlice_append_left (a b : String) (n : Nat) (h : n ≤ a.length) :
    pySlice (a ++ b) n = pySlice a n := by
  simp only [pySlice, strDataAppend]
  exact congrArg String.mk (List.take_append_of_le_length h)

theorem pySlice_pySlice (s : String) (m n : Nat) :
    pySlice (pySlice s n) m = pySlice s (min m n) := by
  simp [pySlice, List.take_take]

theorem str_ne_empty_of_pos (s : String) (h : 0 < s.length) : (s != "") = true := by
  rw [bne_iff_ne]
  intro he
  rw [he] at h
  exact absurd h (by decide)

/-- Truncating an already truncated value changes nothing. -/
theorem truncate_value_idem (v : JsonVal) :
    truncate_value (truncate_value v) = truncate_value v := by
  cases v <;> try rfl
  case str s =>
    by_cases h : 200 < s.length
    · have hlen : (pySlice s 200 ++ "...").length = 203 := by
        rw [strLenAppend, pySlice_length]
        have h3 : ("..." : String).length = 3 := rfl
        omega
      have e1 : truncate_value (JsonVal.str s) = JsonVal.str (pySlice s 200 ++ "...") := by
        simp [truncate_value, h]
      have e2 : truncate_value (JsonVal.str (pySlice s 200 ++ "..."))
          = JsonVal.str (pySlice (pySlice s 200 ++ "...") 200 ++ "...") := by
        simp [truncate_value, hlen]
      have hsl : pySlice (pySlice s 200 ++ "...") 200 = pySlice s 200 := by
        rw [pySlice_append_left _ _ _ (by rw [pySlice_length]; omega), pySlice_pySlice]
        simp
      rw [e1, e2, hsl]
    · have e : truncate_value (JsonVal.str s) = JsonVal.str s := by
        simp [truncate_value, h]
      rw [e, e]

/-- Truncation preserves Python truthiness. -/
theorem truthy_truncate (v : JsonVal) : (truncate_value v).truthy = v.truthy := by
  cases v <;> try rfl
  case str s =>
    by_cases h : 200 < s.length
    · have e1 : truncate_value (JsonVal.str s) = JsonVal.str (pySlice s 200 ++ "...") := by
        simp [truncate_value, h]
      rw [e1]
      show ((pySlice s 200 ++ "...") != "") = (s != "")
      rw [str_ne_empty_of_pos (pySlice s 200 ++ "...")
            (by
              rw [strLenAppend, pySlice_length]
              have h3 : ("..." : String).length = 3 := rfl
              omega),
          str_ne_empty_of_pos s (by omega)]
    · have e : truncate_value (JsonVal.str s) = JsonVal.str s := by
        simp [truncate_value, h]
      rw [e]

theorem detail_entry_truncate (k : String) (v : JsonVal) :
    detail_entry k (truncate_value v) = detail_entry k v := by
  simp only [detail_entry, truncate_value_idem]

theorem pyGet_map_truncate (details : List (String × JsonVal)) :
    pyGet (details.map fun kv => if kv.1 == "CWD" then kv else (kv.1, truncate_value kv.2)) "CWD"
      = pyGet details "CWD" := by
  induction details with
  | nil => rfl
  | cons kv rest ih =>
    rcases kv with ⟨k, v⟩
    cases hek : (k == "CWD")
    · simp [pyGet, hek]
      simpa using ih
    · simp [pyGet, hek]

theorem detail_foldl_map (acc : String) (details : List (String × JsonVal)) :
    List.foldl
      (fun acc kv =>
        if kv.1 == "CWD" then acc
        else if kv.2.truthy then acc ++ detail_entry kv.1 kv.2
        else acc)
      acc
      (details.map fun kv => if kv.1 == "CWD" then kv else (kv.1, truncate_value kv.2))
      = List.foldl
          (fun acc kv =>
            if kv.1 == "CWD" then acc
            else if kv.2.truthy then acc ++ detail_entry kv.1 kv.2
            else acc)
          acc details := by
  induction details generalizing acc with
  | nil => rfl
  | cons kv rest ih =>
    rcases kv with ⟨k, v⟩
    by_cases h : k = "CWD"
    · subst h
      simp only [List.map, List.foldl]
      rw [if_pos (by rfl)]
      simp only [beq_self_eq_true, if_true]
      exact ih acc
    · have hb : (k == "CWD") = false := by simp [h]
      simp only [List.map, List.foldl, hb, Bool.false_eq_true, if_false]
      rw [truthy_truncate, detail_entry_truncate]
      exact ih _

theorem build_detail_text_map (details : List (String × JsonVal)) :
    build_detail_text
        (details.map fun kv => if kv.1 == "CWD" then kv else (kv.1, truncate_value kv.2))
      = build_detail_text details := by
  simp only [build_detail_text]
  exact detail_foldl_map "" details

theorem isEmpty_map_truncate (details : List (String × JsonVal)) :
    (details.map fun kv => if kv.1 == "CWD" then kv else (kv.1, truncate_value kv.2)).isEmpty
      = details.isEmpty := by
  cases details <;> rfl

theorem detail_blocks_map (details : List (String × JsonVal)) :
    detail_blocks (details.map fun kv => if kv.1 == "CWD" then kv else (kv.1, truncate_value kv.2))
      = detail_blocks details := by
  simp only [detail_blocks, isEmpty_map_truncate, build_detail_text_map]

set_option maxRecDepth 16384 in
/-- C10, counterexample: the claim truncates every string detail value
longer than 200 characters before rendering.  The `CWD` detail value is
skipped by the truncation loop and rendered untruncated in the Path block:
the 201-character value appears whole. -/
theorem c10_counterexample :
    (create_notification_blocks "ts" "stop" [("CWD", JsonVal.str longA)]).get? 2
      = some (JsonVal.obj [("type", JsonVal.str "section"),
          ("fields", JsonVal.arr [JsonVal.obj [("type", JsonVal.str "mrkdwn"),
            ("text", JsonVal.str ("*Path:*\n`" ++ longA ++ "`"))]])])
    ∧ 200 < longA.length := by
  exact ⟨rfl, by decide⟩

/-- C10 (amended): every string detail value other than the `CWD` entry
(which the detail loop skips and which is rendered separately as the Path
block) is truncated to its first 200 characters plus "..." when longer
than 200 characters before being rendered, and rendered unmodified at 200
characters or fewer: the rendered blocks are unchanged when every
non-`CWD` detail value is replaced by its truncation. -/
theorem c10_truncation (ts et : String) (details : List (String × JsonVal)) (s : String) :
    create_notification_blocks ts et details
      = create_notification_blocks ts et
          (details.map fun kv => if kv.1 == "CWD" then kv else (kv.1, truncate_value kv.2))
    ∧ (200 < s.length → truncate_value (JsonVal.str s) = JsonVal.str (pySlice s 200 ++ "..."))
    ∧ (s.length ≤ 200 → truncate_value (JsonVal.str s) = JsonVal.str s) := by
  refine ⟨?_, fun h => ?_, fun h => ?_⟩
  · simp only [create_notification_blocks, pyGet_map_truncate, detail_blocks_map]
  · simp [truncate_value, h]
  · have hn : ¬ 200 < s.length := by omega
    simp [truncate_value, hn]

set_option maxRecDepth 16384 in
/-- C10 witness: at a 201-character non-CWD detail value the blocks equal
the blocks of the explicitly truncated value. -/
theorem c10_witness :
    create_notification_blocks "t" "e" [("k", JsonVal.str longA)]
      = create_notification_blocks "t" "e" [("k", JsonVal.str (pySlice longA 200 ++ "..."))]
    ∧ truncate_value (JsonVal.str longA) = JsonVal.str (pySlice longA 200 ++ "...") := by
  have h := c10_truncation "t" "e" [("k", JsonVal.str longA)] longA
  have h2 := h.2.1 (by decide)
  refine ⟨?_, h2⟩
  rw [h.1,
    show ([("k", JsonVal.str longA)].map
        fun kv => if kv.1 == "CWD" then kv else (kv.1, truncate_value kv.2))
      = [("k", truncate_value (JsonVal.str longA))] from rfl,
    h2]
